import Mathlib

/-!
Verification development for the client-side project state synchronizer of
the banana-slides frontend (Zustand store `useProjectStore`, the `debounce`
utility, and the per-page task pollers).

The embedding is shallow: JavaScript runtime values that flow through the
store are modelled by `JVal`; JS objects (pages, partial update payloads,
error payloads) by association lists of fields; the Zustand store state by
`StoreState`; `localStorage` by `Storage`.  Remote calls are modelled with
explicit oracles (the value the awaited promise resolves to, or the error
it rejects with), and the calls a code path issues are collected in an
effect trace (`Eff`).  Nested invocations of `syncProject` from inside
other store actions are recorded as `Eff.syncProjectEff` trace events
rather than folded into the state, except where a claim is about the state
`syncProject` itself produces, in which case the state-transformer
`syncProject` below is used directly.
-/

/-- A JavaScript runtime value, restricted to the shapes that flow through
the store: `undefined`, `null`, strings, and objects (field lists).
Truthiness and member access below follow JS semantics. -/
inductive JVal where
  | undefined : JVal
  | nullv : JVal
  | str : String → JVal
  | oobj : List (String × JVal) → JVal

/-- JS truthiness for the values of `JVal`: `undefined`/`null` are falsy,
a string is truthy iff nonempty, an object is always truthy. -/
def JVal.truthy : JVal → Bool
  | .undefined => false
  | .nullv => false
  | .str s => !(s == "")
  | .oobj _ => true

/-- JS optional-chaining member access `v?.k`: on an object, the field's
value (or `undefined` when absent); on anything else, `undefined`. -/
def JVal.getF : JVal → String → JVal
  | .oobj fs, k =>
    match fs.find? (fun p => p.1 == k) with
    | some p => p.2
    | none => .undefined
  | _, _ => .undefined

/-- JS strict equality `v === s` between a runtime value and a string
literal: true exactly when `v` is that string. -/
def JVal.eqStr : JVal → String → Bool
  | .str a, b => a == b
  | _, _ => false

/-- Is the value a string (JS `typeof v === "string"`)? -/
def JVal.isStr : JVal → Bool
  | .str _ => true
  | _ => false

/-- A JS object as a field list (keys unique in any real JS object). -/
abbrev Obj := List (String × JVal)

/-- Field read `o[k]` on an object, `undefined` when the key is absent. -/
def objGet (o : Obj) (k : String) : JVal :=
  match o.find? (fun p => p.1 == k) with
  | some p => p.2
  | none => .undefined

/-- Does the object have the key as an own property? -/
def objHas (o : Obj) (k : String) : Bool :=
  o.any (fun p => p.1 == k)

/-- JS object spread `{...base, ...data}`: every key of `data` overrides
the binding in `base`; keys only in `base` survive. -/
def spreadFields (base data : Obj) : Obj :=
  base.filter (fun p => !(objHas data p.1)) ++ data

/-- JS `a || b` on an optional string (empty string is falsy). -/
def orElseStr (a : Option String) (b : String) : String :=
  match a with
  | some s => if s == "" then b else s
  | none => b

/-- JS `a || b || c` on two optional strings with a final fallback. -/
def firstTruthy (a b : Option String) (c : String) : String :=
  match a with
  | some s => if s == "" then orElseStr b c else s
  | none => orElseStr b c

/-- ASCII lowering, standing in for JS `toLowerCase` (all the patterns
`normalizeErrorMessage` tests are ASCII, where the two agree). -/
def strToLower (s : String) : String :=
  String.mk (s.data.map Char.toLower)

/-- Does the first character list start with the second? -/
def charsStartWith : List Char → List Char → Bool
  | _, [] => true
  | [], _ => false
  | a :: as, b :: bs => a == b && charsStartWith as bs

/-- Does the first character list contain the second as a contiguous
run? -/
def charsContain : List Char → List Char → Bool
  | [], needle => needle.isEmpty
  | a :: as, needle => charsStartWith (a :: as) needle || charsContain as needle

/-- Substring containment test (JS `String.prototype.includes`). -/
def containsSub (s sub : String) : Bool :=
  charsContain s.data sub.data

/-- `normalizeErrorMessage` from the utils module: falsy input becomes the
generic message, three known backend phrases are replaced by friendly
text, and anything else passes through unchanged. -/
def normalizeErrorMessage (errorMessage : Option String) : String :=
  match errorMessage with
  | none => "操作失敗"
  | some s =>
    if s == "" then "操作失敗"
    else
      let message := strToLower s
      if containsSub message "no template image found" then
        "目前專案還沒有範本，請先點擊頁面工具欄的「更換範本」按鈕，選擇或上傳一張範本圖片後再生成。"
      else if containsSub message "page must have description content" then
        "該頁面還沒有描述內容，請先在「編輯頁面描述」步驟為此頁生成或填寫描述。"
      else if containsSub message "image already exists" then
        "該頁面已經有圖片，如需重新生成，請在生成時選擇「重新生成」或稍後重試。"
      else s

/-! ## The debounce utility

`debounce(func, wait)` closes over a single `timeout` slot: each call
clears any pending timer and schedules `func` with the latest arguments.
We model a history as a list of events — argument calls and timer firings
— and compute the list of `func` invocations it produces.  The single
shared slot is the whole point: the timer is NOT keyed by the arguments. -/

/-- Arguments of one `debouncedUpdatePage(projectId, pageId, data)` call. -/
abbrev DebArgs := String × String × Obj

/-- An event in the life of a debounced function: an argument call
(resets the timer, storing the latest arguments) or a timer firing. -/
inductive DebEvent where
  | call : String → String → Obj → DebEvent
  | fire : DebEvent

/-- Run a debounce event history from a given pending slot, returning the
`func` invocations in order.  A `call` overwrites the pending slot
(`clearTimeout` + fresh `setTimeout`); a `fire` delivers the pending
arguments, if any, and empties the slot. -/
def runDebounce : List DebEvent → Option DebArgs → List DebArgs
  | [], _ => []
  | .call pid pg d :: rest, _ => runDebounce rest (some (pid, pg, d))
  | .fire :: rest, pending =>
    match pending with
    | some a => a :: runDebounce rest none
    | none => runDebounce rest none

/-! ## Effects issued by store actions -/

/-- A progress pair reported by the task API. -/
structure Progress where
  total : Nat
  completed : Nat
deriving Repr, DecidableEq

/-- A remote call or internal handoff issued by a store code path. -/
inductive Eff where
  | apiUpdatePageDescription : String → String → JVal → Eff
  | apiUpdatePageOutline : String → String → JVal → Eff
  | apiUpdatePage : String → String → Obj → Eff
  | apiGeneratePageImage : String → String → Bool → Eff
  | apiEditPageImage : String → String → String → Eff
  | apiGeneratePageDescription : String → String → Bool → Eff
  | syncProjectEff : Eff
  | pollPageTaskEff : String → String → Eff

/-- Is the effect one of the three page-write endpoints? -/
def Eff.isPageWrite : Eff → Bool
  | .apiUpdatePageDescription _ _ _ => true
  | .apiUpdatePageOutline _ _ _ => true
  | .apiUpdatePage _ _ _ => true
  | _ => false

/-- Is the effect a `syncProject` invocation? -/
def Eff.isSync : Eff → Bool
  | .syncProjectEff => true
  | _ => false

/-- Body of the debounced writer `debouncedUpdatePage`: endpoint choice by
field precedence — a truthy `description_content` goes to the description
endpoint, else a truthy `outline_content` to the outline endpoint, else
the generic page-update endpoint. -/
def debouncedUpdatePageBody (projectId pageId : String) (data : Obj) : Eff :=
  if (objGet data "description_content").truthy then
    .apiUpdatePageDescription projectId pageId (objGet data "description_content")
  else if (objGet data "outline_content").truthy then
    .apiUpdatePageOutline projectId pageId (objGet data "outline_content")
  else
    .apiUpdatePage projectId pageId data

/-- Full effect trace of one firing of `debouncedUpdatePage`: the chosen
endpoint call, then — only when that call succeeds — a `syncProject` to
refresh `updated_at`.  A failed call is only logged. -/
def debouncedUpdatePageEffects (projectId pageId : String) (data : Obj)
    (apiOk : Bool) : List Eff :=
  debouncedUpdatePageBody projectId pageId data ::
    (if apiOk then [Eff.syncProjectEff] else [])

/-! ## Store state, the project mirror, and localStorage -/

/-- The mirrored `Project` aggregate, as the store holds it after
normalization.  A page is an `Obj` (the store reads page fields
dynamically — `id`, `description_content`, `status`, …). -/
structure Project where
  id : String
  status : JVal
  template_image_path : JVal
  created_at : JVal
  updated_at : JVal
  pages : List Obj

/-- The state slice of `useProjectStore` the synchronizer operates on. -/
structure StoreState where
  currentProject : Option Project
  isGlobalLoading : Bool
  activeTaskId : Option String
  taskProgress : Option Progress
  error : Option String
  pageGeneratingTasks : List (String × String)
  pageDescriptionGeneratingTasks : List (String × Bool)

/-- The durable pointer: `localStorage` with its `currentProjectId` key.
(`getItem` returns `null` for an absent key, modelled as `none`.) -/
structure Storage where
  currentProjectId : Option String

/-- Record read `r[k]` on a string-valued record. -/
def recGetS (r : List (String × String)) (k : String) : Option String :=
  (r.find? (fun p => p.1 == k)).map (·.2)

/-- Record read `r[k]` on a boolean-valued record, with JS truthiness
(an absent key reads as `undefined`, hence falsy). -/
def recGetB (r : List (String × Bool)) (k : String) : Bool :=
  match r.find? (fun p => p.1 == k) with
  | some p => p.2
  | none => false

/-- Record update `{...r, [k]: v}`: overwrite the binding when the key
exists, append it otherwise (JS object keys stay unique). -/
def recSetS (r : List (String × String)) (k v : String) : List (String × String) :=
  if r.any (fun p => p.1 == k) then
    r.map (fun p => if p.1 == k then (k, v) else p)
  else r ++ [(k, v)]

/-- Same update on a boolean-valued record. -/
def recSetB (r : List (String × Bool)) (k : String) (v : Bool) : List (String × Bool) :=
  if r.any (fun p => p.1 == k) then
    r.map (fun p => if p.1 == k then (k, v) else p)
  else r ++ [(k, v)]

/-- `delete r[k]` on a string-valued record. -/
def recDelS (r : List (String × String)) (k : String) : List (String × String) :=
  r.filter (fun p => !(p.1 == k))

/-- `delete r[k]` on a boolean-valued record. -/
def recDelB (r : List (String × Bool)) (k : String) : List (String × Bool) :=
  r.filter (fun p => !(p.1 == k))

/-- Number of record entries carried for a key (one for any JS record
whose key is present, since keys are unique). -/
def recCountS (r : List (String × String)) (k : String) : Nat :=
  (r.filter (fun p => p.1 == k)).length

/-- Same count on a boolean-valued record. -/
def recCountB (r : List (String × Bool)) (k : String) : Nat :=
  (r.filter (fun p => p.1 == k)).length

/-- JS truthiness of an optional string (empty string is falsy). -/
def optTruthy : Option String → Bool
  | some s => !(s == "")
  | none => false

/-! ## syncProject -/

/-- The `error` object an axios-style rejected fetch carries:
`error.response` (HTTP status plus the response body), `error.request`
(request sent, no response), and `error.message`. -/
structure FetchErr where
  response : Option (Nat × JVal)
  hasRequest : Bool
  message : Option String

/-- Oracle for the `api.getProject` call inside `syncProject`: the promise
resolves with `response.data` (possibly falsy, modelled `none`), or
rejects with a `FetchErr`.  The resolved snapshot is supplied already in
mirror form (i.e. post-`normalizeProject`). -/
inductive SyncOutcome where
  | success : Option Project → SyncOutcome
  | failure : FetchErr → SyncOutcome

/-- Target-project resolution at the top of `syncProject`: the argument if
truthy, else a truthy `currentProject?.id`, else
`localStorage.getItem('currentProjectId') || undefined`. -/
def syncTarget (s : StoreState) (st : Storage) (projectId : Option String) :
    Option String :=
  if optTruthy projectId then projectId
  else
    match s.currentProject with
    | some p => if p.id == "" then
        (if optTruthy st.currentProjectId then st.currentProjectId else none)
      else some p.id
    | none => if optTruthy st.currentProjectId then st.currentProjectId else none

/-- The error-message extraction of `syncProject`'s catch block, together
with the `shouldClearStorage` flag (set only for a 404 response). -/
def syncErrExtract (e : FetchErr) : String × Bool :=
  match e.response with
  | some (status, errorData) =>
    if status == 404 then
      (match (errorData.getF "error").getF "message" with
        | .str s => if s == "" then "專案不存在，可能已被刪除" else s
        | _ => "專案不存在，可能已被刪除", true)
    else if ((errorData.getF "error").getF "message").truthy then
      (match (errorData.getF "error").getF "message" with
        | .str s => s
        | _ => "同步專案失敗", false)
    else if (errorData.getF "message").truthy then
      (match errorData.getF "message" with
        | .str s => s
        | _ => "同步專案失敗", false)
    else if (errorData.getF "error").truthy then
      (if (errorData.getF "error").isStr then
        (match errorData.getF "error" with
          | .str s => s
          | _ => "請求失敗")
      else
        (match (errorData.getF "error").getF "message" with
          | .str s => if s == "" then "請求失敗" else s
          | _ => "請求失敗"), false)
    else
      ("請求失敗: " ++ toString status, false)
  | none =>
    if e.hasRequest then ("網路錯誤，請檢查後端服務是否啟動", false)
    else
      match e.message with
      | some s => if s == "" then ("同步專案失敗", false) else (s, false)
      | none => ("同步專案失敗", false)

/-- `syncProject(projectId?)`: resolve the target id (returning unchanged
state when none is available), then fetch.  On success with data, replace
the mirror wholesale and (re)write the durable pointer.  On a 404
failure, clear the pointer, empty the mirror and surface the message; on
any other failure, only surface the message. -/
def syncProject (s : StoreState) (st : Storage) (projectId : Option String)
    (oracle : SyncOutcome) : StoreState × Storage :=
  match syncTarget s st projectId with
  | none => (s, st)
  | some _ =>
    match oracle with
    | .success data =>
      match data with
      | some project =>
        ({ s with currentProject := some project },
         { st with currentProjectId := some project.id })
      | none => (s, st)
    | .failure e =>
      let (errorMessage, shouldClearStorage) := syncErrExtract e
      if shouldClearStorage then
        ({ s with currentProject := none,
                  error := some (normalizeErrorMessage (some errorMessage)) },
         { st with currentProjectId := none })
      else
        ({ s with error := some (normalizeErrorMessage (some errorMessage)) }, st)

/-! ## updatePageLocal and reorderPages -/

/-- `updatePageLocal(pageId, data)`: with no loaded project, do nothing;
otherwise merge `data` into the one page whose `id` strictly equals
`pageId` (object spread), keep every other page and project attribute,
and schedule the debounced remote write with the current project id. -/
def updatePageLocal (s : StoreState) (pageId : String) (data : Obj) :
    StoreState × Option DebArgs :=
  match s.currentProject with
  | none => (s, none)
  | some p =>
    let updatedPages := p.pages.map (fun page =>
      if (objGet page "id").eqStr pageId then spreadFields page data else page)
    ({ s with currentProject := some { p with pages := updatedPages } },
     some (p.id, pageId, data))

/-- `reorderPages(newOrder)`: with no loaded project, do nothing.
Otherwise optimistically re-sequence the pages by looking each id up
(dropping misses, as `.filter(Boolean)` does), then persist.  When the
persist rejects, surface `error.message || '更新順序失敗'` and roll back
through a full `syncProject()` (no explicit argument). -/
def reorderPages (s : StoreState) (st : Storage) (newOrder : List String)
    (persistFails : Bool) (persistErrMsg : Option String)
    (syncOracle : SyncOutcome) : StoreState × Storage :=
  match s.currentProject with
  | none => (s, st)
  | some p =>
    let reorderedPages := newOrder.filterMap (fun i =>
      p.pages.find? (fun page => (objGet page "id").eqStr i))
    let s1 := { s with currentProject := some { p with pages := reorderedPages } }
    if persistFails then
      let s2 := { s1 with error := some (orElseStr persistErrMsg "更新順序失敗") }
      syncProject s2 st none syncOracle
    else (s1, st)

/-! ## Task pollers

A poll tick awaits `api.getTaskStatus` and branches on the result.  The
oracle below is what that await produced: the promise rejected (transport
error), resolved without a task payload, or resolved with a task of a
given status string, error fields, and optional progress. -/

/-- Outcome of one `getTaskStatus` await. -/
inductive PollResult where
  | transportError : Option String → PollResult
  | noData : PollResult
  | task : String → Option String → Option String → Option Progress → PollResult

/-- Result of one poll tick: the next store state, the effects issued
during the tick, and — when the tick called `setTimeout(poll, d)` — the
delay `d` of the rescheduled tick. -/
structure TickOut where
  state : StoreState
  effects : List Eff
  reschedule : Option Nat

/-- One tick of the global poller `pollTask`: progress is forwarded;
COMPLETED clears the task state and triggers `syncProject`; FAILED
surfaces `error_message || error || '任務失敗'` and clears the task state
(no sync); PENDING/PROCESSING reschedules after 2000 ms; any other status
is terminal-with-error; a transport error surfaces a message and stops
(no reschedule). -/
def pollTaskTick (s : StoreState) (r : PollResult) : TickOut :=
  match r with
  | .transportError m =>
    { state := { s with error := some (normalizeErrorMessage (some (orElseStr m "任務查詢失敗"))),
                        activeTaskId := none, isGlobalLoading := false },
      effects := [], reschedule := none }
  | .noData => { state := s, effects := [], reschedule := none }
  | .task status errMsg errField prog =>
    let s1 := match prog with
      | some p => { s with taskProgress := some p }
      | none => s
    if status == "COMPLETED" then
      { state := { s1 with activeTaskId := none, taskProgress := none,
                           isGlobalLoading := false },
        effects := [Eff.syncProjectEff], reschedule := none }
    else if status == "FAILED" then
      { state := { s1 with error := some (normalizeErrorMessage
                              (some (firstTruthy errMsg errField "任務失敗"))),
                           activeTaskId := none, taskProgress := none,
                           isGlobalLoading := false },
        effects := [], reschedule := none }
    else if status == "PENDING" || status == "PROCESSING" then
      { state := s1, effects := [], reschedule := some 2000 }
    else
      { state := { s1 with error := some ("未知任務狀態: " ++ status),
                           activeTaskId := none, taskProgress := none,
                           isGlobalLoading := false },
        effects := [], reschedule := none }

/-- One tick of the per-page poller `pollPageTask`: COMPLETED releases the
page's registry slot and syncs; FAILED releases the slot, surfaces
`error_message || error || '生成失敗'` and syncs; PENDING/PROCESSING syncs
and reschedules after 2000 ms; any other status releases the slot and
stops without setting an error; a transport error releases the slot and
stops without setting an error. -/
def pollPageTaskTick (s : StoreState) (pageId : String) (r : PollResult) : TickOut :=
  match r with
  | .transportError _ =>
    { state := { s with pageGeneratingTasks := recDelS s.pageGeneratingTasks pageId },
      effects := [], reschedule := none }
  | .noData => { state := s, effects := [], reschedule := none }
  | .task status errMsg errField _ =>
    if status == "COMPLETED" then
      { state := { s with pageGeneratingTasks := recDelS s.pageGeneratingTasks pageId },
        effects := [Eff.syncProjectEff], reschedule := none }
    else if status == "FAILED" then
      { state := { s with pageGeneratingTasks := recDelS s.pageGeneratingTasks pageId,
                          error := some (normalizeErrorMessage
                              (some (firstTruthy errMsg errField "生成失敗"))) },
        effects := [Eff.syncProjectEff], reschedule := none }
    else if status == "PENDING" || status == "PROCESSING" then
      { state := s, effects := [Eff.syncProjectEff], reschedule := some 2000 }
    else
      { state := { s with pageGeneratingTasks := recDelS s.pageGeneratingTasks pageId },
        effects := [], reschedule := none }

/-- Effect trace of a `pollTask` loop across a sequence of tick outcomes:
one effect list per executed tick, stopping when a tick does not
reschedule. -/
def pollTaskTrace (s : StoreState) : List PollResult → List (List Eff)
  | [] => []
  | r :: rs =>
    let t := pollTaskTick s r
    t.effects :: (if t.reschedule.isSome then pollTaskTrace t.state rs else [])

/-- Effect trace of a `pollPageTask` loop across a sequence of tick
outcomes. -/
def pollPageTaskTrace (s : StoreState) (pageId : String) :
    List PollResult → List (List Eff)
  | [] => []
  | r :: rs =>
    let t := pollPageTaskTick s pageId r
    t.effects ::
      (if t.reschedule.isSome then pollPageTaskTrace t.state pageId rs else [])

/-- Total number of `syncProject` invocations in a trace. -/
def traceSyncCount (tr : List (List Eff)) : Nat :=
  (tr.map (fun effs => (effs.filter Eff.isSync).length)).sum

/-- One tick of the `pollAndSync` loop inside `generateDescriptions`.
Besides the task status it consumes the mirror value observed after the
in-tick `syncProject` (supplied by the `refreshed` oracle) to recompute
the per-page generating flags; COMPLETED clears them and syncs once more;
FAILED clears them and surfaces the message; PENDING/PROCESSING
reschedules after 2000 ms; a transport error still syncs and reschedules
after the same 2000 ms. -/
def pollAndSyncTick (s : StoreState) (initialTasks : List (String × Bool))
    (r : PollResult) (refreshed : Option Project) : TickOut :=
  match r with
  | .transportError _ =>
    { state := s, effects := [Eff.syncProjectEff], reschedule := some 2000 }
  | .noData => { state := s, effects := [], reschedule := none }
  | .task status errMsg errField prog =>
    let s1 := match prog with
      | some p => { s with taskProgress := some p }
      | none => s
    let s2 := { s1 with currentProject := refreshed }
    let s3 := match refreshed with
      | some up =>
        let updatedTasks := up.pages.filterMap (fun page =>
          match objGet page "id" with
          | .str pid =>
            if pid == "" then none
            else
              let hasDescription := (objGet page "description_content").truthy
              let isGenerating := (objGet page "status").eqStr "GENERATING" ||
                (!hasDescription && recGetB initialTasks pid)
              if isGenerating then some (pid, true) else none
          | _ => none)
        { s2 with pageDescriptionGeneratingTasks := updatedTasks }
      | none => s2
    if status == "COMPLETED" then
      { state := { s3 with pageDescriptionGeneratingTasks := [],
                           taskProgress := none, activeTaskId := none },
        effects := [Eff.syncProjectEff, Eff.syncProjectEff], reschedule := none }
    else if status == "FAILED" then
      { state := { s3 with pageDescriptionGeneratingTasks := [],
                           taskProgress := none, activeTaskId := none,
                           error := some (normalizeErrorMessage
                               (some (firstTruthy errMsg errField "生成描述失敗"))) },
        effects := [Eff.syncProjectEff], reschedule := none }
    else if status == "PENDING" || status == "PROCESSING" then
      { state := s3, effects := [Eff.syncProjectEff], reschedule := some 2000 }
    else
      { state := s3, effects := [Eff.syncProjectEff], reschedule := none }

/-- Local state of the material-generation poller in the material modal
(`pollMaterialTask`), which runs on a 2000 ms `setInterval`. -/
structure MaterialPollState where
  attempts : Nat
  isGenerating : Bool
  intervalActive : Bool
  previewUrl : Option String

/-- The interval period `pollMaterialTask` is set up with. -/
def materialPollIntervalMs : Nat := 2000

/-- One tick of `pollMaterialTask` (cap of 60 attempts, counted before
the fetch): COMPLETED/FAILED stop the interval; PENDING/PROCESSING keeps
it running until the cap; a transport error keeps the interval running
until the cap is reached — the task is not terminated by a single
transport failure. -/
def pollMaterialTick (st : MaterialPollState) (r : PollResult)
    (imageUrl : Option String) : MaterialPollState :=
  let st := { st with attempts := st.attempts + 1 }
  match r with
  | .transportError _ =>
    if st.attempts ≥ 60 then
      { st with isGenerating := false, intervalActive := false }
    else st
  | .noData => st
  | .task status _ _ _ =>
    if status == "COMPLETED" then
      { st with previewUrl := (match imageUrl with
                  | some u => some u
                  | none => st.previewUrl),
                isGenerating := false, intervalActive := false }
    else if status == "FAILED" then
      { st with isGenerating := false, intervalActive := false }
    else if status == "PENDING" || status == "PROCESSING" then
      if st.attempts ≥ 60 then
        { st with isGenerating := false, intervalActive := false }
      else st
    else st

/-! ## Generation-task submitters and their duplicate guards -/

/-- Oracle for the submitting API call of a generation action: the promise
resolves with `response.data?.task_id` (possibly absent/falsy), or
rejects with `error.message`. -/
inductive GenOutcome where
  | ok : Option String → GenOutcome
  | err : Option String → GenOutcome

/-- `generatePageImage(pageId, forceRegenerate)`: no-op without a project;
no-op (before any remote call) while `pageGeneratingTasks[pageId]` is
truthy.  Otherwise clear the error, call the API; a truthy task id is
registered for the page, followed by a sync and the poller handoff; a
falsy id just syncs; a rejection deletes the page's registry entry and
surfaces the message.  Nested syncs appear as trace effects. -/
def generatePageImage (s : StoreState) (pageId : String) (force : Bool)
    (outcome : GenOutcome) : StoreState × List Eff :=
  match s.currentProject with
  | none => (s, [])
  | some p =>
    if optTruthy (recGetS s.pageGeneratingTasks pageId) then (s, [])
    else
      let s1 := { s with error := none }
      let call := Eff.apiGeneratePageImage p.id pageId force
      match outcome with
      | .ok tid =>
        if optTruthy tid then
          let t := tid.getD ""
          ({ s1 with pageGeneratingTasks := recSetS s1.pageGeneratingTasks pageId t },
           [call, Eff.syncProjectEff, Eff.pollPageTaskEff pageId t])
        else (s1, [call, Eff.syncProjectEff])
      | .err m =>
        ({ s1 with pageGeneratingTasks := recDelS s1.pageGeneratingTasks pageId,
                   error := some (normalizeErrorMessage (some (orElseStr m "生成圖片失敗"))) },
         [call])

/-- `editPageImage(pageId, editPrompt, contextImages)`: same structure and
guard as `generatePageImage`, against the same image-task registry, with
the edit endpoint and the `'編輯圖片失敗'` fallback. -/
def editPageImage (s : StoreState) (pageId : String) (editPrompt : String)
    (outcome : GenOutcome) : StoreState × List Eff :=
  match s.currentProject with
  | none => (s, [])
  | some p =>
    if optTruthy (recGetS s.pageGeneratingTasks pageId) then (s, [])
    else
      let s1 := { s with error := none }
      let call := Eff.apiEditPageImage p.id pageId editPrompt
      match outcome with
      | .ok tid =>
        if optTruthy tid then
          let t := tid.getD ""
          ({ s1 with pageGeneratingTasks := recSetS s1.pageGeneratingTasks pageId t },
           [call, Eff.syncProjectEff, Eff.pollPageTaskEff pageId t])
        else (s1, [call, Eff.syncProjectEff])
      | .err m =>
        ({ s1 with pageGeneratingTasks := recDelS s1.pageGeneratingTasks pageId,
                   error := some (normalizeErrorMessage (some (orElseStr m "編輯圖片失敗"))) },
         [call])

/-- `generatePageDescription(pageId)`: no-op without a project; no-op
(before any remote call) while `pageDescriptionGeneratingTasks[pageId]`
is truthy.  Otherwise clear the error, mark the page busy, sync, call the
description endpoint with `force_regenerate = true`, sync again on
success or surface the message on rejection, and in either case release
the page's flag (the `finally` block). -/
def generatePageDescription (s : StoreState) (pageId : String)
    (outcome : GenOutcome) : StoreState × List Eff :=
  match s.currentProject with
  | none => (s, [])
  | some p =>
    if recGetB s.pageDescriptionGeneratingTasks pageId then (s, [])
    else
      let s1 := { s with error := none }
      let s2 := { s1 with pageDescriptionGeneratingTasks :=
                    recSetB s1.pageDescriptionGeneratingTasks pageId true }
      let call := Eff.apiGeneratePageDescription p.id pageId true
      match outcome with
      | .ok _ =>
        ({ s2 with pageDescriptionGeneratingTasks :=
             recDelB s2.pageDescriptionGeneratingTasks pageId },
         [Eff.syncProjectEff, call, Eff.syncProjectEff])
      | .err m =>
        ({ s2 with error := some (normalizeErrorMessage (some (orElseStr m "生成描述失敗"))),
                   pageDescriptionGeneratingTasks :=
                     recDelB s2.pageDescriptionGeneratingTasks pageId },
         [Eff.syncProjectEff, call])

/-- A concrete project used by several witnesses below. -/
def witProject : Project :=
  { id := "P", status := JVal.str "DRAFT", template_image_path := JVal.nullv,
    created_at := JVal.str "c", updated_at := JVal.str "u", pages := [] }

/-- A concrete store state with page `p1` registered in both task
registries, used by the C2 witness. -/
def c2BusyState : StoreState :=
  { currentProject := some witProject, isGlobalLoading := false,
    activeTaskId := none, taskProgress := none, error := none,
    pageGeneratingTasks := [("p1", "t1")],
    pageDescriptionGeneratingTasks := [("p1", true)] }

/-- The observed status sequence of the C3 scenario. -/
def seqPPPC : List PollResult :=
  [PollResult.task "PENDING" none none none,
   PollResult.task "PROCESSING" none none none,
   PollResult.task "PROCESSING" none none none,
   PollResult.task "COMPLETED" none none none]

/-- A concrete store state used by several counterexamples below. -/
def cexState : StoreState :=
  { currentProject := some
      { id := "P", status := JVal.str "DRAFT", template_image_path := JVal.nullv,
        created_at := JVal.str "c", updated_at := JVal.str "u", pages := [] },
    isGlobalLoading := true, activeTaskId := some "t1", taskProgress := none,
    error := none, pageGeneratingTasks := [("p1", "t1")],
    pageDescriptionGeneratingTasks := [] }

/-- A concrete 404 fetch rejection (project deleted server-side). -/
def notFoundErr : FetchErr :=
  { response := some (404, JVal.oobj []), hasRequest := false, message := none }

/-! ## Theorems -/

/-- C10: for every debounced persist that fires, the endpoint is chosen by
field precedence — a truthy `description_content` is sent only through
the description endpoint (outline content in the same partial is not also
sent), otherwise a truthy `outline_content` goes through the outline
endpoint, and only partials with neither use the generic page-update
endpoint; exactly one of the three page-write endpoints is called per
firing. -/
theorem C10_endpoint_precedence (projectId pageId : String) (data : Obj)
    (apiOk : Bool) :
    ((debouncedUpdatePageEffects projectId pageId data apiOk).filter Eff.isPageWrite
        = [debouncedUpdatePageBody projectId pageId data]) ∧
    ((objGet data "description_content").truthy = true →
      debouncedUpdatePageBody projectId pageId data
        = Eff.apiUpdatePageDescription projectId pageId (objGet data "description_content")) ∧
    ((objGet data "description_content").truthy = false →
      (objGet data "outline_content").truthy = true →
      debouncedUpdatePageBody projectId pageId data
        = Eff.apiUpdatePageOutline projectId pageId (objGet data "outline_content")) ∧
    ((objGet data "description_content").truthy = false →
      (objGet data "outline_content").truthy = false →
      debouncedUpdatePageBody projectId pageId data
        = Eff.apiUpdatePage projectId pageId data) := by
  refine ⟨?_, ?_, ?_, ?_⟩
  · unfold debouncedUpdatePageEffects debouncedUpdatePageBody
    by_cases h1 : (objGet data "description_content").truthy <;>
      by_cases h2 : (objGet data "outline_content").truthy <;>
        cases apiOk <;>
          simp [h1, h2, Eff.isPageWrite]
  · intro h1
    unfold debouncedUpdatePageBody
    simp [h1]
  · intro h1 h2
    unfold debouncedUpdatePageBody
    simp [h1, h2]
  · intro h1 h2
    unfold debouncedUpdatePageBody
    simp [h1, h2]

/-- Witness for C10 at concrete partials: a partial carrying both contents
goes only to the description endpoint, an outline-only partial to the
outline endpoint, and a title-only partial to the generic endpoint. -/
theorem C10_endpoint_precedence_witness :
    debouncedUpdatePageBody "P" "p1"
        [("description_content", JVal.str "d"), ("outline_content", JVal.str "o")]
      = Eff.apiUpdatePageDescription "P" "p1" (JVal.str "d") ∧
    debouncedUpdatePageBody "P" "p2" [("outline_content", JVal.str "o")]
      = Eff.apiUpdatePageOutline "P" "p2" (JVal.str "o") ∧
    debouncedUpdatePageBody "P" "p3" [("title", JVal.str "t")]
      = Eff.apiUpdatePage "P" "p3" [("title", JVal.str "t")] :=
  ⟨(C10_endpoint_precedence "P" "p1"
      [("description_content", JVal.str "d"), ("outline_content", JVal.str "o")]
      true).2.1 (by decide),
   (C10_endpoint_precedence "P" "p2" [("outline_content", JVal.str "o")]
      true).2.2.1 (by decide) (by decide),
   (C10_endpoint_precedence "P" "p3" [("title", JVal.str "t")]
      true).2.2.2 (by decide) (by decide)⟩

/-- C1 counterexample: two local edits to two DISTINCT pages inside the
same debounce window produce only ONE remote write when the timer fires —
the write for the last page — because `debouncedUpdatePage` closes over a
single shared timer slot; the first page's pending write is discarded, so
edits to distinct pages do NOT each get their own remote write. -/
theorem C1_single_timer_counterexample :
    runDebounce
        [DebEvent.call "P" "p1" [("outline_content", JVal.str "a")],
         DebEvent.call "P" "p2" [("outline_content", JVal.str "b")],
         DebEvent.fire] none
      = [("P", "p2", [("outline_content", JVal.str "b")])] ∧
    ((runDebounce
        [DebEvent.call "P" "p1" [("outline_content", JVal.str "a")],
         DebEvent.call "P" "p2" [("outline_content", JVal.str "b")],
         DebEvent.fire] none).filter (fun a => a.2.1 == "p1")).length = 0 := by
  exact ⟨rfl, rfl⟩

/-- C1 (amended): for every nonempty burst of `debouncedUpdatePage` calls
within one debounce window — whatever mix of pages they touch — the timer
firing delivers exactly one underlying invocation, carrying the last
call's arguments.  In particular edits to the same page field coalesce to
one remote write with the last value; but the timer is a single shared
slot, not keyed per `(page, field-group)`, so an edit to a different page
within the window also just overwrites the pending write. -/
theorem C1_debounce_last_edit_wins (c : DebArgs) (cs : List DebArgs) :
    runDebounce
        (((c :: cs).map (fun a => DebEvent.call a.1 a.2.1 a.2.2)) ++ [DebEvent.fire])
        none
      = [(c :: cs).getLast (List.cons_ne_nil c cs)] := by
  induction cs generalizing c with
  | nil => rfl
  | cons d ds ih =>
    have h := ih d
    simpa [runDebounce, List.getLast] using h

/-- C9: `updatePageLocal` is frame-exact — with a loaded project, only the
page whose `id` strictly equals `pageId` changes (spread-merged with the
partial data); every other page is unchanged at its position, the page
count and all non-pages project attributes are unchanged, the rest of the
store state is unchanged, and the debounced remote write is scheduled
with the current project id; with no loaded project, nothing changes and
no remote write is scheduled. -/
theorem C9_updatePageLocal_frame (s : StoreState) (pageId : String) (data : Obj) :
    (∀ p, s.currentProject = some p →
      ∃ p', (updatePageLocal s pageId data).1 = { s with currentProject := some p' } ∧
        p'.id = p.id ∧ p'.status = p.status ∧
        p'.template_image_path = p.template_image_path ∧
        p'.created_at = p.created_at ∧ p'.updated_at = p.updated_at ∧
        p'.pages.length = p.pages.length ∧
        (∀ (i : Nat) (pg : Obj), p.pages[i]? = some pg →
          (objGet pg "id").eqStr pageId = false → p'.pages[i]? = some pg) ∧
        (∀ (i : Nat) (pg : Obj), p.pages[i]? = some pg →
          (objGet pg "id").eqStr pageId = true →
          p'.pages[i]? = some (spreadFields pg data)) ∧
        (updatePageLocal s pageId data).2 = some (p.id, pageId, data)) ∧
    (s.currentProject = none → updatePageLocal s pageId data = (s, none)) := by
  constructor
  · intro p hp
    refine ⟨{ p with pages := p.pages.map (fun page =>
        if (objGet page "id").eqStr pageId then spreadFields page data else page) },
      ?_, rfl, rfl, rfl, rfl, rfl, by simp, ?_, ?_, ?_⟩
    · unfold updatePageLocal
      rw [hp]
    · intro i pg hi hne
      simp [List.getElem?_map, hi, hne]
    · intro i pg hi heq
      simp [List.getElem?_map, hi, heq]
    · unfold updatePageLocal
      rw [hp]
  · intro hnone
    unfold updatePageLocal
    rw [hnone]

/-- Witness for C9: a two-page project where an edit to page `p1` merges
the partial into `p1` only, leaves `p2` at its position, and schedules
the debounced write; and an unloaded store where the call is inert. -/
theorem C9_updatePageLocal_frame_witness :
    (updatePageLocal
        { currentProject := some
            { id := "P", status := JVal.str "DRAFT",
              template_image_path := JVal.nullv,
              created_at := JVal.str "c", updated_at := JVal.str "u",
              pages := [[("id", JVal.str "p1"), ("title", JVal.str "old")],
                        [("id", JVal.str "p2")]] },
          isGlobalLoading := false, activeTaskId := none, taskProgress := none,
          error := none, pageGeneratingTasks := [],
          pageDescriptionGeneratingTasks := [] }
        "p1" [("title", JVal.str "new")]).2 = some ("P", "p1", [("title", JVal.str "new")]) ∧
    updatePageLocal
        { currentProject := none, isGlobalLoading := false, activeTaskId := none,
          taskProgress := none, error := none, pageGeneratingTasks := [],
          pageDescriptionGeneratingTasks := [] }
        "p1" [("title", JVal.str "new")]
      = ({ currentProject := none, isGlobalLoading := false, activeTaskId := none,
           taskProgress := none, error := none, pageGeneratingTasks := [],
           pageDescriptionGeneratingTasks := [] }, none) := by
  constructor
  · obtain ⟨p', -, -, -, -, -, -, -, -, -, hcall⟩ :=
      (C9_updatePageLocal_frame
        { currentProject := some
            { id := "P", status := JVal.str "DRAFT",
              template_image_path := JVal.nullv,
              created_at := JVal.str "c", updated_at := JVal.str "u",
              pages := [[("id", JVal.str "p1"), ("title", JVal.str "old")],
                        [("id", JVal.str "p2")]] },
          isGlobalLoading := false, activeTaskId := none, taskProgress := none,
          error := none, pageGeneratingTasks := [],
          pageDescriptionGeneratingTasks := [] }
        "p1" [("title", JVal.str "new")]).1 _ rfl
    exact hcall
  · exact (C9_updatePageLocal_frame
      { currentProject := none, isGlobalLoading := false, activeTaskId := none,
        taskProgress := none, error := none, pageGeneratingTasks := [],
        pageDescriptionGeneratingTasks := [] }
      "p1" [("title", JVal.str "new")]).2 rfl

/-- In a record whose keys are unique, a key that `find?` locates is
carried by exactly one entry. -/
theorem recCount_eq_one_of_found {α : Type} (r : List (String × α)) (k : String)
    (hfind : (r.find? (fun p => p.1 == k)).isSome)
    (hnd : (r.map Prod.fst).Nodup) :
    (r.filter (fun p => p.1 == k)).length = 1 := by
  induction r with
  | nil => simp [List.find?] at hfind
  | cons a as ih =>
    rw [List.map_cons, List.nodup_cons] at hnd
    obtain ⟨hna, hnd'⟩ := hnd
    by_cases h : a.1 == k
    · have hk : a.1 = k := by simpa using h
      have hempty : as.filter (fun p => p.1 == k) = [] := by
        rw [List.filter_eq_nil_iff]
        intro b hb
        have hbk : b.1 ≠ a.1 := by
          intro hcontra
          exact hna (hcontra ▸ List.mem_map_of_mem Prod.fst hb)
        simp [hk ▸ hbk]
      simp [List.filter_cons, h, hempty]
    · have hfind' : (as.find? (fun p => p.1 == k)).isSome := by
        rw [List.find?_cons] at hfind
        simpa [h] using hfind
      simp [List.filter_cons, h, ih hfind' hnd']

/-- C2: while a generation task is registered for a page and not yet
released, a second submission for the same `(category, page)` key —
`generatePageImage` or `editPageImage` against the image registry,
`generatePageDescription` against the description registry — is a no-op:
the store state (registry included) is returned unchanged, no remote call
is issued, and the registry still holds exactly one active entry for that
key. -/
theorem C2_duplicate_submission_noop (s : StoreState) (pageId : String)
    (force : Bool) (prompt : String) (o1 o2 o3 : GenOutcome) (p : Project)
    (hproj : s.currentProject = some p)
    (himg : optTruthy (recGetS s.pageGeneratingTasks pageId) = true)
    (hdesc : recGetB s.pageDescriptionGeneratingTasks pageId = true)
    (huniqImg : (s.pageGeneratingTasks.map Prod.fst).Nodup)
    (huniqDesc : (s.pageDescriptionGeneratingTasks.map Prod.fst).Nodup) :
    generatePageImage s pageId force o1 = (s, []) ∧
    editPageImage s pageId prompt o2 = (s, []) ∧
    generatePageDescription s pageId o3 = (s, []) ∧
    recCountS s.pageGeneratingTasks pageId = 1 ∧
    recCountB s.pageDescriptionGeneratingTasks pageId = 1 := by
  have hfindImg : (s.pageGeneratingTasks.find? (fun q => q.1 == pageId)).isSome := by
    unfold recGetS at himg
    cases hf : s.pageGeneratingTasks.find? (fun q => q.1 == pageId) with
    | none => rw [hf] at himg; simp [optTruthy] at himg
    | some v => simp
  have hfindDesc :
      (s.pageDescriptionGeneratingTasks.find? (fun q => q.1 == pageId)).isSome := by
    unfold recGetB at hdesc
    cases hf : s.pageDescriptionGeneratingTasks.find? (fun q => q.1 == pageId) with
    | none => rw [hf] at hdesc; simp at hdesc
    | some v => simp
  refine ⟨?_, ?_, ?_, ?_, ?_⟩
  · unfold generatePageImage
    rw [hproj, himg]
    rfl
  · unfold editPageImage
    rw [hproj, himg]
    rfl
  · unfold generatePageDescription
    rw [hproj, hdesc]
    rfl
  · exact recCount_eq_one_of_found _ _ hfindImg huniqImg
  · exact recCount_eq_one_of_found _ _ hfindDesc huniqDesc

/-- Witness for C2: with page `p1` registered in both registries, all
three submitters are no-ops and each registry holds exactly one entry. -/
theorem C2_duplicate_submission_noop_witness :
    generatePageImage c2BusyState "p1" false (GenOutcome.ok (some "t2"))
        = (c2BusyState, []) ∧
    editPageImage c2BusyState "p1" "make it blue" (GenOutcome.ok none)
        = (c2BusyState, []) ∧
    generatePageDescription c2BusyState "p1" (GenOutcome.err none)
        = (c2BusyState, []) ∧
    recCountS c2BusyState.pageGeneratingTasks "p1" = 1 ∧
    recCountB c2BusyState.pageDescriptionGeneratingTasks "p1" = 1 :=
  C2_duplicate_submission_noop c2BusyState "p1" false "make it blue"
    (GenOutcome.ok (some "t2")) (GenOutcome.ok none) (GenOutcome.err none)
    witProject rfl (by decide) (by decide) (by decide) (by decide)

/-- C3 counterexample: on the status sequence
[PENDING, PROCESSING, PROCESSING, COMPLETED], the per-page poller
`pollPageTask` triggers a `syncProject` on EVERY tick — four in total,
the first of them already on the PENDING tick — so "exactly one resync,
only after the COMPLETED tick" does not hold for every polling loop in
the store. -/
theorem C3_pollPageTask_counterexample :
    pollPageTaskTrace cexState "p1" seqPPPC
      = [[Eff.syncProjectEff], [Eff.syncProjectEff],
         [Eff.syncProjectEff], [Eff.syncProjectEff]] ∧
    traceSyncCount (pollPageTaskTrace cexState "p1" seqPPPC) = 4 := by
  exact ⟨rfl, rfl⟩

/-- C3 (amended): on [PENDING, PROCESSING, PROCESSING, COMPLETED] the
global poller `pollTask` triggers exactly one `syncProject`, on the
COMPLETED tick and never on a PENDING or PROCESSING tick; the per-page
poller `pollPageTask`, by contrast, also resyncs on every PENDING and
PROCESSING tick, so this run triggers four resyncs there, the last one
after the COMPLETED tick. -/
theorem C3_resync_per_poller (s : StoreState) (pageId : String) :
    pollTaskTrace s seqPPPC = [[], [], [], [Eff.syncProjectEff]] ∧
    traceSyncCount (pollTaskTrace s seqPPPC) = 1 ∧
    pollPageTaskTrace s pageId seqPPPC
      = [[Eff.syncProjectEff], [Eff.syncProjectEff],
         [Eff.syncProjectEff], [Eff.syncProjectEff]] ∧
    traceSyncCount (pollPageTaskTrace s pageId seqPPPC) = 4 := by
  refine ⟨rfl, rfl, rfl, rfl⟩

/-- C4 counterexample: on a FAILED status the global poller `pollTask`
surfaces the server message and releases the task, but issues NO
`syncProject` — the claimed "additionally triggers a Mirror
resynchronization" fails for `pollTask`. -/
theorem C4_pollTask_no_resync_counterexample :
    (pollTaskTick cexState (PollResult.task "FAILED" (some "boom") none none)).effects
      = [] ∧
    (pollTaskTick cexState (PollResult.task "FAILED" (some "boom") none none)).state.error
      = some "boom" ∧
    (pollTaskTick cexState (PollResult.task "FAILED" (some "boom") none none)).state.activeTaskId
      = none := by
  exact ⟨rfl, rfl, rfl⟩

/-- C4 (amended): on FAILED, the per-page poller `pollPageTask` surfaces
the server-provided message (or the generic fallback when both error
fields are absent), releases the page's registry slot, stops, and
triggers a resync; the global poller `pollTask` surfaces the message and
releases the task state but does NOT resync. -/
theorem C4_failed_handling (s : StoreState) (pageId : String)
    (em ef : Option String) (prog : Option Progress) :
    ((pollPageTaskTick s pageId (PollResult.task "FAILED" em ef none)).state.error
        = some (normalizeErrorMessage (some (firstTruthy em ef "生成失敗")))) ∧
    (∀ m, em = some m → m ≠ "" →
      (pollPageTaskTick s pageId (PollResult.task "FAILED" em ef none)).state.error
        = some (normalizeErrorMessage (some m))) ∧
    (em = none → ef = none →
      (pollPageTaskTick s pageId (PollResult.task "FAILED" em ef none)).state.error
        = some (normalizeErrorMessage (some "生成失敗"))) ∧
    ((pollPageTaskTick s pageId (PollResult.task "FAILED" em ef none)).state.pageGeneratingTasks
        = recDelS s.pageGeneratingTasks pageId) ∧
    ((pollPageTaskTick s pageId (PollResult.task "FAILED" em ef none)).effects
        = [Eff.syncProjectEff]) ∧
    ((pollPageTaskTick s pageId (PollResult.task "FAILED" em ef none)).reschedule = none) ∧
    ((pollTaskTick s (PollResult.task "FAILED" em ef prog)).state.error
        = some (normalizeErrorMessage (some (firstTruthy em ef "任務失敗")))) ∧
    ((pollTaskTick s (PollResult.task "FAILED" em ef prog)).state.activeTaskId = none) ∧
    ((pollTaskTick s (PollResult.task "FAILED" em ef prog)).effects = []) ∧
    ((pollTaskTick s (PollResult.task "FAILED" em ef prog)).reschedule = none) := by
  refine ⟨rfl, ?_, ?_, rfl, rfl, rfl, ?_, ?_, ?_, ?_⟩
  · intro m hm hne
    subst hm
    simp [pollPageTaskTick, firstTruthy, hne]
  · intro h1 h2
    subst h1; subst h2
    rfl
  · cases prog <;> rfl
  · cases prog <;> rfl
  · cases prog <;> rfl
  · cases prog <;> rfl

/-- Witness for C4 at a concrete failed task with a server message. -/
theorem C4_failed_handling_witness :
    (pollPageTaskTick cexState "p1"
        (PollResult.task "FAILED" (some "kaput") none none)).state.error
      = some (normalizeErrorMessage (some "kaput")) ∧
    (pollPageTaskTick cexState "p1"
        (PollResult.task "FAILED" (some "kaput") none none)).effects
      = [Eff.syncProjectEff] :=
  ⟨((C4_failed_handling cexState "p1" (some "kaput") none none).2.1) "kaput" rfl
      (by decide),
   (C4_failed_handling cexState "p1" (some "kaput") none none).2.2.2.2.1⟩

/-- C6 counterexample: a single transport error on a poll tick of the
global poller `pollTask` terminates the task — no tick is rescheduled,
the active-task slot is released and an error is surfaced — contradicting
"the poller logs the error and reschedules another poll tick". -/
theorem C6_pollTask_stops_counterexample :
    (pollTaskTick cexState (PollResult.transportError (some "net down"))).reschedule
      = none ∧
    (pollTaskTick cexState (PollResult.transportError (some "net down"))).state.activeTaskId
      = none ∧
    (pollTaskTick cexState (PollResult.transportError (some "net down"))).state.error
      = some "net down" := by
  exact ⟨rfl, rfl, rfl⟩

/-- C6 (amended): only some pollers survive a transport error.  The
`pollAndSync` loop of `generateDescriptions` syncs and reschedules after
the same fixed 2000 ms delay with its state untouched, and the material
poller below its attempt cap keeps its 2000 ms interval running; but the
store pollers `pollTask` and `pollPageTask` terminate on the FIRST
transport error, releasing their slot (and, for `pollTask`, surfacing an
error) instead of rescheduling. -/
theorem C6_transport_error_per_poller (s : StoreState) (pageId : String)
    (m : Option String) (initialTasks : List (String × Bool))
    (refreshed : Option Project) (mst : MaterialPollState)
    (img : Option String) (hcap : mst.attempts + 1 < 60) :
    pollAndSyncTick s initialTasks (PollResult.transportError m) refreshed
      = ⟨s, [Eff.syncProjectEff], some 2000⟩ ∧
    pollMaterialTick mst (PollResult.transportError m) img
      = { mst with attempts := mst.attempts + 1 } ∧
    materialPollIntervalMs = 2000 ∧
    (pollTaskTick s (PollResult.transportError m)).reschedule = none ∧
    (pollTaskTick s (PollResult.transportError m)).state.activeTaskId = none ∧
    (pollPageTaskTick s pageId (PollResult.transportError m)).reschedule = none ∧
    (pollPageTaskTick s pageId (PollResult.transportError m)).state.pageGeneratingTasks
      = recDelS s.pageGeneratingTasks pageId := by
  refine ⟨rfl, ?_, rfl, rfl, rfl, rfl, rfl⟩
  unfold pollMaterialTick
  have : ¬ (mst.attempts + 1 ≥ 60) := by omega
  simp [this]

/-- Witness for C6 at a concrete material-poller state below the cap. -/
theorem C6_transport_error_per_poller_witness :
    pollMaterialTick
        { attempts := 3, isGenerating := true, intervalActive := true,
          previewUrl := none }
        (PollResult.transportError (some "net down")) none
      = { attempts := 4, isGenerating := true, intervalActive := true,
          previewUrl := none } ∧
    (pollTaskTick cexState (PollResult.transportError (some "net down"))).reschedule
      = none :=
  ⟨(C6_transport_error_per_poller cexState "p1" (some "net down") [] none
      { attempts := 3, isGenerating := true, intervalActive := true,
        previewUrl := none } none (by decide)).2.1,
   (C6_transport_error_per_poller cexState "p1" (some "net down") [] none
      { attempts := 3, isGenerating := true, intervalActive := true,
        previewUrl := none } none (by decide)).2.2.2.1⟩

/-- C7 counterexample: on an unrecognized status string the per-page
poller `pollPageTask` stops and releases the slot but surfaces NO error
(the store error field stays `none`), contradicting "treats it as
terminal-with-error ... and surfaces an error" for every poller. -/
theorem C7_pollPageTask_silent_counterexample :
    (pollPageTaskTick cexState "p1" (PollResult.task "WEIRD" none none none)).state.error
      = none ∧
    (pollPageTaskTick cexState "p1" (PollResult.task "WEIRD" none none none)).reschedule
      = none := by
  exact ⟨rfl, rfl⟩

/-- C7 (amended): any status outside PENDING/PROCESSING/COMPLETED/FAILED
is terminal for both store pollers — neither reschedules, `pollTask`
surfaces an unknown-status error and releases the task state, and
`pollPageTask` releases the page's registry slot but surfaces no error
(its store error field is left unchanged). -/
theorem C7_unknown_status_terminal (s : StoreState) (pageId status : String)
    (em ef : Option String) (prog : Option Progress)
    (h1 : status ≠ "PENDING") (h2 : status ≠ "PROCESSING")
    (h3 : status ≠ "COMPLETED") (h4 : status ≠ "FAILED") :
    (pollTaskTick s (PollResult.task status em ef prog)).reschedule = none ∧
    (pollTaskTick s (PollResult.task status em ef prog)).state.activeTaskId = none ∧
    (pollTaskTick s (PollResult.task status em ef prog)).state.error
      = some ("未知任務狀態: " ++ status) ∧
    (pollPageTaskTick s pageId (PollResult.task status em ef prog)).reschedule = none ∧
    (pollPageTaskTick s pageId (PollResult.task status em ef prog)).state.pageGeneratingTasks
      = recDelS s.pageGeneratingTasks pageId ∧
    (pollPageTaskTick s pageId (PollResult.task status em ef prog)).state.error
      = s.error := by
  unfold pollTaskTick pollPageTaskTick
  cases prog <;> simp [h1, h2, h3, h4]

/-- Witness for C7 at the concrete unrecognized status "WEIRD". -/
theorem C7_unknown_status_terminal_witness :
    (pollTaskTick cexState (PollResult.task "WEIRD" none none none)).state.error
      = some ("未知任務狀態: " ++ "WEIRD") ∧
    (pollPageTaskTick cexState "p1" (PollResult.task "WEIRD" none none none)).state.error
      = cexState.error :=
  ⟨(C7_unknown_status_terminal cexState "p1" "WEIRD" none none none
      (by decide) (by decide) (by decide) (by decide)).2.2.1,
   (C7_unknown_status_terminal cexState "p1" "WEIRD" none none none
      (by decide) (by decide) (by decide) (by decide)).2.2.2.2.2⟩

/-- The catch block of `syncProject` sets `shouldClearStorage` only for a
404 response: for every other rejected fetch the flag stays false. -/
theorem syncErrExtract_snd_false (e : FetchErr)
    (hne : ∀ status errorData, e.response = some (status, errorData) → status ≠ 404) :
    (syncErrExtract e).2 = false := by
  obtain ⟨resp, hr, msg⟩ := e
  cases resp with
  | none =>
    unfold syncErrExtract
    repeat' split
    all_goals simp_all
  | some q =>
    obtain ⟨status, ed⟩ := q
    have h : (status == 404) = false := by
      simpa using hne status ed rfl
    unfold syncErrExtract
    simp only [h]
    repeat' split
    all_goals simp_all

/-- C5: when the server reports the project as not found (404), the
durable pointer is cleared and the mirror is emptied; for every other
fetch failure, the storage is untouched and the mirror is left exactly as
it was — the only state change is the transient error string; and the 404
path is the only one through `syncProject` that can clear a present
pointer. -/
theorem C5_notfound_clears_pointer (s : StoreState) (st : Storage)
    (pid : Option String) (oracle : SyncOutcome)
    (htarget : (syncTarget s st pid).isSome = true) :
    (∀ status errorData hasReq msg,
       oracle = SyncOutcome.failure ⟨some (status, errorData), hasReq, msg⟩ →
       status = 404 →
       (syncProject s st pid oracle).2.currentProjectId = none ∧
       (syncProject s st pid oracle).1.currentProject = none) ∧
    (∀ e, oracle = SyncOutcome.failure e →
       (∀ status errorData, e.response = some (status, errorData) → status ≠ 404) →
       (syncProject s st pid oracle).2 = st ∧
       (syncProject s st pid oracle).1
         = { s with error := some (normalizeErrorMessage (some (syncErrExtract e).1)) }) ∧
    (optTruthy st.currentProjectId = true →
       (syncProject s st pid oracle).2.currentProjectId = none →
       ∃ errorData hasReq msg,
         oracle = SyncOutcome.failure ⟨some (404, errorData), hasReq, msg⟩) := by
  obtain ⟨t, ht⟩ := Option.isSome_iff_exists.mp htarget
  refine ⟨?_, ?_, ?_⟩
  · intro status ed hasReq msg ho h404
    subst ho
    subst h404
    unfold syncProject
    rw [ht]
    dsimp only
    unfold syncErrExtract
    dsimp only
    simp
  · intro e ho hne
    subst ho
    unfold syncProject
    rw [ht]
    dsimp only
    rw [syncErrExtract_snd_false e hne]
    simp
  · intro hptr hnone
    cases oracle with
    | success data =>
      cases data with
      | none =>
        unfold syncProject at hnone
        rw [ht] at hnone
        dsimp only at hnone
        rw [hnone] at hptr
        simp [optTruthy] at hptr
      | some proj =>
        unfold syncProject at hnone
        rw [ht] at hnone
        dsimp only at hnone
        simp at hnone
    | failure e =>
      by_cases h404 : ∃ errorData hasReq msg,
          e = FetchErr.mk (some (404, errorData)) hasReq msg
      · obtain ⟨ed, hreq, m, hme⟩ := h404
        exact ⟨ed, hreq, m, by rw [hme]⟩
      · exfalso
        have hne : ∀ status errorData, e.response = some (status, errorData) → status ≠ 404 := by
          intro status ed hresp hs
          subst hs
          obtain ⟨resp, hreq, m⟩ := e
          dsimp only at hresp
          subst hresp
          exact h404 ⟨ed, hreq, m, rfl⟩
        unfold syncProject at hnone
        rw [ht] at hnone
        dsimp only at hnone
        rw [syncErrExtract_snd_false e hne] at hnone
        simp at hnone
        rw [hnone] at hptr
        simp [optTruthy] at hptr

/-- Witness for C5: with a stored pointer and a loaded project, a 404 on
the fetch clears the pointer and empties the mirror. -/
theorem C5_notfound_clears_pointer_witness :
    (syncProject cexState { currentProjectId := some "X" } (some "P")
        (SyncOutcome.failure notFoundErr)).2.currentProjectId = none ∧
    (syncProject cexState { currentProjectId := some "X" } (some "P")
        (SyncOutcome.failure notFoundErr)).1.currentProject = none :=
  (C5_notfound_clears_pointer cexState { currentProjectId := some "X" }
      (some "P") (SyncOutcome.failure notFoundErr) (by decide)).1
    404 (JVal.oobj []) false none rfl rfl

/-- C8: when the remote persist of a reorder fails, the store rolls back
by forcing a `syncProject`, so the mirror afterwards is exactly the
server's authoritative snapshot (its page order included, whatever the
pre-reorder or optimistically applied order was), and the durable pointer
tracks that snapshot's id. -/
theorem C8_reorder_rollback_to_server (s : StoreState) (st : Storage)
    (newOrder : List String) (msg : Option String) (server p : Project)
    (hp : s.currentProject = some p) (hid : p.id ≠ "") :
    (reorderPages s st newOrder true msg
        (SyncOutcome.success (some server))).1.currentProject = some server ∧
    (reorderPages s st newOrder true msg
        (SyncOutcome.success (some server))).2.currentProjectId = some server.id := by
  have hfalse : (p.id == "") = false := by
    simpa using hid
  unfold reorderPages
  rw [hp]
  dsimp only
  unfold syncProject syncTarget
  simp [optTruthy, hfalse]

/-- Witness for C8: a concrete two-page project whose reorder persist
fails; after the rollback resync the mirror equals the server snapshot. -/
theorem C8_reorder_rollback_to_server_witness :
    (reorderPages cexState { currentProjectId := some "P" } ["p2", "p1"] true none
        (SyncOutcome.success (some
          { id := "P", status := JVal.str "COMPLETED",
            template_image_path := JVal.nullv, created_at := JVal.str "c",
            updated_at := JVal.str "u2",
            pages := [[("id", JVal.str "p1")], [("id", JVal.str "p2")]] }))).1.currentProject
      = some
          { id := "P", status := JVal.str "COMPLETED",
            template_image_path := JVal.nullv, created_at := JVal.str "c",
            updated_at := JVal.str "u2",
            pages := [[("id", JVal.str "p1")], [("id", JVal.str "p2")]] } :=
  (C8_reorder_rollback_to_server cexState { currentProjectId := some "P" }
      ["p2", "p1"] none
      { id := "P", status := JVal.str "COMPLETED",
        template_image_path := JVal.nullv, created_at := JVal.str "c",
        updated_at := JVal.str "u2",
        pages := [[("id", JVal.str "p1")], [("id", JVal.str "p2")]] }
      witProject rfl (by decide)).1
